import Mathlib

set_option linter.unusedVariables false

/-!
Verification of the pymodbus async server core (src/pymodbus/server/async_io.py)
against its natural-language specification.  The data model and operations below
are shallow embeddings of the Python source; definitions whose Python original is
outside src/ are modelled from the spec and say so in their doc comment.
-/

/-- Modbus exception code 11 (pymodbus.pdu.ModbusExceptions.GatewayNoResponse). -/
def GatewayNoResponse : Nat := 11

/-- Modbus exception code 4 (pymodbus.pdu.ModbusExceptions.SlaveFailure). -/
def SlaveFailure : Nat := 4

/-- A response PDU as the handler sees it: the fields read or written by
ModbusServerRequestHandler.execute/send (transaction_id, slave_id,
function_code, should_respond) plus the exception code for exception PDUs. -/
structure Response where
  transaction_id : Nat
  slave_id : Nat
  function_code : Nat
  should_respond : Bool
  exception_code : Option Nat
deriving DecidableEq

/-- Outcome of running request.execute(context): either a Response, or a raised
Python exception (caught by the generic `except Exception` of the handler). -/
inductive ExecOutcome where
  | ok (r : Response)
  | raiseErr
deriving DecidableEq

/-- A decoded request as dispatched to ModbusServerRequestHandler.execute.
`run` is request.execute applied to the slave context stored under a given
context key; it may raise (ExecOutcome.raiseErr). -/
structure Request where
  transaction_id : Nat
  slave_id : Nat
  function_code : Nat
  run : Nat → ExecOutcome

/-- Modelled from the spec: request.doException(code) (pymodbus.pdu, not under
src/) builds an ExceptionResponse with function_code = original | 0x80 and the
given exception code; like any response it has should_respond = true.  Its
transaction_id/slave_id are later overwritten by the handler. -/
def Request.doException (req : Request) (code : Nat) : Response :=
  { transaction_id := 0, slave_id := 0,
    function_code := req.function_code ||| 0x80,
    should_respond := true, exception_code := some code }

/-- Modelled from the spec: a ModbusServerContext (pymodbus.datastore, not under
src/) is either single-slave or a mapping keyed by slave id; `ids` is the list
of keys held by the context. -/
structure ServerContext where
  single : Bool
  ids : List Nat
deriving DecidableEq

/-- Modelled from the spec: ModbusServerContext.slaves() returns the slave ids
known to the context. -/
def ServerContext.slaves (ctx : ServerContext) : List Nat := ctx.ids

/-- Modelled from the spec: context[slave_id] routes every request to the one
context when single, otherwise looks the id up and raises NoSuchSlaveException
(modelled as none) for an unknown id.  The result is the key of the slave
context used. -/
def ServerContext.lookup (ctx : ServerContext) (slave_id : Nat) : Option Nat :=
  if ctx.single then some 0
  else if slave_id ∈ ctx.ids then some slave_id else none

/-- The fields of a Modbus server object read by the request handler. -/
structure Server where
  broadcast_enable : Bool
  ignore_missing_slaves : Bool
  has_request_tracer : Bool
  response_manipulator : Option (Response → Response × Bool)
  context : ServerContext

/-- Bytes emitted on the wire by ModbusServerRequestHandler.send: either a frame
built by the framer (framer.buildPacket(message)) or the raw response object
when skip_encoding was requested. -/
inductive Wire where
  | framed (r : Response)
  | raw (r : Response)
deriving DecidableEq

/-- The response carried by a wire emission. -/
def wireResponse : Wire → Response
  | .framed r => r
  | .raw r => r

/-- Observable effects of one call to ModbusServerRequestHandler.execute:
which context keys request.execute ran against, the exception code passed to
request.doException by the handler (if any), the response entering the
non-broadcast send stage before manipulation, whether the response_manipulator
was invoked, the arguments handed to send, and the bytes emitted. -/
structure ExecTrace where
  tracerCalled : Bool
  executed : List Nat
  doExceptionCode : Option Nat
  synthesized : Option Response
  manipulated : Bool
  sentResp : Option (Response × Bool)
  wire : Option Wire
deriving DecidableEq

/-- ModbusServerRequestHandler.send (src/pymodbus/server/async_io.py 271-288):
skip_encoding sends the message raw; otherwise the frame is built and sent only
when message.should_respond; else nothing is emitted. -/
def handlerSend (message : Response) (skip_encoding : Bool) : Option Wire :=
  if skip_encoding then some (.raw message)
  else if message.should_respond then some (.framed message)
  else none

/-- The broadcast loop of ModbusServerRequestHandler.execute (lines 245-246):
run the request against each slave context in order; a raised exception leaves
the loop (it is caught by the surrounding try).  Returns the keys executed
against and whether an exception was raised. -/
def broadcastRun (run : Nat → ExecOutcome) : List Nat → List Nat × Bool
  | [] => ([], false)
  | s :: rest =>
    match run s with
    | .ok _ =>
      let t := broadcastRun run rest
      (s :: t.1, t.2)
    | .raiseErr => ([s], true)

/-- A trace in which nothing reaches the send stage (broadcast, or a missing
slave being ignored). -/
def silentTrace (tracer : Bool) (executed : List Nat) (code : Option Nat) :
    ExecTrace :=
  { tracerCalled := tracer, executed := executed, doExceptionCode := code,
    synthesized := none, manipulated := false, sentResp := none, wire := none }

/-- Lines 262-269 of ModbusServerRequestHandler.execute: copy transaction_id and
slave_id from the request onto the response, run the response_manipulator when
configured, then send. -/
def finishResponse (srv : Server) (req : Request) (tracer : Bool)
    (executed : List Nat) (code : Option Nat) (resp : Response) : ExecTrace :=
  let r1 := { resp with transaction_id := req.transaction_id,
                        slave_id := req.slave_id }
  match srv.response_manipulator with
  | none =>
    { tracerCalled := tracer, executed := executed, doExceptionCode := code,
      synthesized := some r1, manipulated := false,
      sentResp := some (r1, false), wire := handlerSend r1 false }
  | some f =>
    { tracerCalled := tracer, executed := executed, doExceptionCode := code,
      synthesized := some r1, manipulated := true,
      sentResp := some (f r1), wire := handlerSend (f r1).1 (f r1).2 }

/-- ModbusServerRequestHandler.execute (src/pymodbus/server/async_io.py
230-269): trace of one dispatched request. -/
def handlerExecute (srv : Server) (req : Request) : ExecTrace :=
  let tracer := srv.has_request_tracer
  if srv.broadcast_enable && req.slave_id == 0 then
    let t := broadcastRun req.run srv.context.slaves
    if t.2 then silentTrace tracer t.1 (some SlaveFailure)
    else silentTrace tracer t.1 none
  else
    match srv.context.lookup req.slave_id with
    | none =>
      if srv.ignore_missing_slaves then silentTrace tracer [] none
      else finishResponse srv req tracer [] (some GatewayNoResponse)
        (req.doException GatewayNoResponse)
    | some key =>
      match req.run key with
      | .ok r => finishResponse srv req tracer [key] none r
      | .raiseErr => finishResponse srv req tracer [key] (some SlaveFailure)
          (req.doException SlaveFailure)

/-- The transport family of a connection handler: stream (TCP/TLS/Unix/serial)
or datagram (UDP).  All connections are served by the one class
ModbusServerRequestHandler. -/
structure LoopHandler where
  isDatagram : Bool
deriving DecidableEq

/-- The isinstance(self, ModbusServerRequestHandler) test at line 214 of the
source: self is a method receiver of that very class (the file defines no other
handler class), so the test is true for stream and datagram handlers alike. -/
def isinstanceRequestHandler (_ : LoopHandler) : Bool := true

/-- What the generic except branch of the receive loop does. -/
inductive LoopExcAction where
  | closeTransport
  | resetFrameAndContinue
deriving DecidableEq

/-- ModbusServerRequestHandler.handle, generic `except Exception` branch
(src/pymodbus/server/async_io.py 210-228): close the transport when the
isinstance test holds, otherwise set reset_frame so the framer is reset and the
loop continues. -/
def handleLoopException (h : LoopHandler) : LoopExcAction :=
  if isinstanceRequestHandler h then .closeTransport
  else .resetFrameAndContinue

/-- Index of the first occurrence of pat in s (Python bytes.find / the `in`
test); the empty pattern occurs at index 0. -/
def firstOccur (pat : List Nat) : List Nat → Option Nat
  | [] => if List.isPrefixOf pat ([] : List Nat) then some 0 else none
  | a :: rest =>
    if List.isPrefixOf pat (a :: rest) then some 0
    else (firstOccur pat rest).map (· + 1)

/-- Python bytes containment `pat in s`. -/
def bytesContains (pat s : List Nat) : Bool := (firstOccur pat s).isSome

/-- Python `s.replace(pat, b"", 1)`: remove the first occurrence of pat from s
(s unchanged when pat does not occur). -/
def replaceFirst (pat s : List Nat) : List Nat :=
  match firstOccur pat s with
  | some i => s.take i ++ s.drop (i + pat.length)
  | none => s

/-- ModbusServerRequestHandler.data_received (src/pymodbus/server/async_io.py
313-324).  Input: the handle_local_echo flag, the _sent buffer and the incoming
chunk; output: the new _sent buffer and the chunk queued to the receive queue
(none when nothing is queued). -/
def data_received (handle_local_echo : Bool) (sent data : List Nat) :
    List Nat × Option (List Nat) :=
  if handle_local_echo && !sent.isEmpty then
    let p : List Nat × List Nat :=
      if bytesContains sent data then ([], replaceFirst sent data)
      else if List.isPrefixOf data sent then (replaceFirst data sent, [])
      else ([], data)
    if p.2.isEmpty then (p.1, none) else (p.1, some p.2)
  else (sent, some data)

/-- The process-wide active-server slot (_serverList.active_server); servers
are identified by a token. -/
structure ServerSlot where
  active_server : Option Nat
deriving DecidableEq

/-- _serverList.run (src/pymodbus/server/async_io.py 942-949): register the new
server in the slot.  The assignment `cls.active_server = _serverList(server)`
is unconditional, so the call never raises and any previously registered server
is replaced. -/
def serverListRun (slot : ServerSlot) (server : Nat) : Except String ServerSlot :=
  Except.ok { active_server := some server }

/-- Result of a stop call: the new slot and whether the registered server's
shutdown was awaited. -/
structure StopResult where
  slot : ServerSlot
  shutdownAwaited : Bool
deriving DecidableEq

/-- _serverList.async_stop (src/pymodbus/server/async_io.py 951-958), also the
body of ServerAsyncStop (line 1123): raise RuntimeError when no server is
registered; otherwise await the registered server's shutdown and clear the
slot. -/
def serverListAsyncStop (slot : ServerSlot) : Except String StopResult :=
  match slot.active_server with
  | none => Except.error "ServerAsyncStop called without server task active."
  | some _ => Except.ok { slot := { active_server := none },
                          shutdownAwaited := true }

/-- _serverList.stop (src/pymodbus/server/async_io.py 960-968), also the body of
ServerStop (line 1128): raise RuntimeError when no server is registered;
otherwise schedule async_stop on the registered server's loop. -/
def serverListStop (slot : ServerSlot) : Except String StopResult :=
  match slot.active_server with
  | none => Except.error "ServerStop called without server task active."
  | some _ => serverListAsyncStop slot

/-- Python str.split(":") on a string modelled as a list of characters. -/
def splitColon : List Char → List (List Char)
  | [] => [[]]
  | c :: rest =>
    if c = ':' then [] :: splitColon rest
    else
      match splitColon rest with
      | h :: t => (c :: h) :: t
      | [] => [[c]]

/-- Decimal digit test. -/
def isDigitChar (c : Char) : Bool := '0' ≤ c && c ≤ '9'

/-- Accumulate decimal digits into a number. -/
def digitsToNat : List Char → Nat → Nat
  | [], acc => acc
  | c :: rest, acc => digitsToNat rest (acc * 10 + (c.toNat - '0'.toNat))

/-- Python int(str) as used on the port field: a nonempty all-digit string
parses to its value; anything else raises ValueError (none). -/
def pyInt (s : List Char) : Option Nat :=
  if !s.isEmpty && s.all isDigitChar then some (digitsToNat s 0) else none

/-- ModbusSerialServer.serve_forever, socket branch (src/pymodbus/server/
async_io.py 899-909): when the device string starts with "socket:" the code
computes parts = device[9:].split(":") and binds a TCP listener to
(parts[0], int(parts[1])).  Returns the bound (host, port); none when the
device does not select socket mode or the parse raises. -/
def serialListenTarget (device : List Char) : Option (List Char × Nat) :=
  if List.isPrefixOf "socket:".toList device then
    match splitColon (device.drop 9) with
    | p0 :: p1 :: _ => (pyInt p1).map (fun n => (p0, n))
    | _ => none
  else none

/-- ModbusSerialServer._connect (src/pymodbus/server/async_io.py 823-848):
returns true when a serial connection is attempted; for a device starting with
"socket:" the method returns immediately. -/
def connectOpensSerial (device : List Char) : Bool :=
  !(List.isPrefixOf "socket:".toList device)

/-- Membership test of a key in a dict modelled as an association list. -/
def dictContains (k : Nat) (m : List (Nat × Nat)) : Bool :=
  m.any (fun p => p.1 == k)

/-- Python dict.pop(k): drop the entry with the given key. -/
def dictPop (k : Nat) (m : List (Nat × Nat)) : List (Nat × Nat) :=
  m.filter (fun p => p.1 != k)

/-- Python dict assignment m[k] = v. -/
def dictInsert (k v : Nat) (m : List (Nat × Nat)) : List (Nat × Nat) :=
  (k, v) :: dictPop k m

/-- The handler state written by connection_made. -/
structure MadeResult where
  active_connections : List (Nat × Nat)
  running : Bool
  handler_task : Bool
deriving DecidableEq

/-- ModbusServerRequestHandler.connection_made (src/pymodbus/server/async_io.py
93-129): set running, register the handler in the owning server's
active_connections under its client address, and spawn the handler task. -/
def connection_made (client_address hid : Nat) (m : List (Nat × Nat)) :
    MadeResult :=
  { active_connections := dictInsert client_address hid m
  , running := true
  , handler_task := true }

/-- The observable effects of connection_lost. -/
structure LostResult where
  taskCancelled : Bool
  active_connections : List (Nat × Nat)
  hookCalled : Bool
  running : Bool
deriving DecidableEq

/-- ModbusServerRequestHandler.connection_lost (src/pymodbus/server/async_io.py
131-157): cancel the handler task when one exists, pop the client address from
active_connections when present (the membership guard makes the pop safe), call
the server's on_connection_lost hook when the server defines one, and clear
running. -/
def connection_lost (serverHasHook : Bool) (client_address : Nat)
    (handler_task : Bool) (m : List (Nat × Nat)) : LostResult :=
  { taskCancelled := handler_task
  , active_connections :=
      if dictContains client_address m then dictPop client_address m else m
  , hookCalled := serverHasHook
  , running := false }

/-! Helper lemmas about the embedding. -/

theorem broadcastRun_noRaise (run : Nat → ExecOutcome) :
    ∀ l : List Nat, (∀ s ∈ l, run s ≠ .raiseErr) →
      broadcastRun run l = (l, false) := by
  intro l
  induction l with
  | nil => intro _; rfl
  | cons s rest ih =>
    intro h
    have hs : run s ≠ .raiseErr := h s (List.mem_cons_self s rest)
    cases hrun : run s with
    | ok r =>
      have hrest := ih (fun x hx => h x (List.mem_cons_of_mem s hx))
      simp [broadcastRun, hrun, hrest]
    | raiseErr => exact absurd hrun hs

theorem handlerExecute_broadcast (srv : Server) (req : Request)
    (h : (srv.broadcast_enable && req.slave_id == 0) = true) :
    handlerExecute srv req =
      (let t := broadcastRun req.run srv.context.slaves
       if t.2 then silentTrace srv.has_request_tracer t.1 (some SlaveFailure)
       else silentTrace srv.has_request_tracer t.1 none) := by
  unfold handlerExecute
  rw [h]
  simp

theorem handlerExecute_nonbroadcast (srv : Server) (req : Request)
    (h : (srv.broadcast_enable && req.slave_id == 0) = false) :
    handlerExecute srv req =
      (match srv.context.lookup req.slave_id with
       | none =>
         if srv.ignore_missing_slaves then
           silentTrace srv.has_request_tracer [] none
         else finishResponse srv req srv.has_request_tracer []
           (some GatewayNoResponse) (req.doException GatewayNoResponse)
       | some key =>
         match req.run key with
         | .ok r => finishResponse srv req srv.has_request_tracer [key] none r
         | .raiseErr => finishResponse srv req srv.has_request_tracer [key]
             (some SlaveFailure) (req.doException SlaveFailure)) := by
  unfold handlerExecute
  rw [h]
  simp

theorem finishResponse_synthesized (srv : Server) (req : Request)
    (tracer : Bool) (executed : List Nat) (code : Option Nat)
    (resp : Response) :
    (finishResponse srv req tracer executed code resp).synthesized =
      some { resp with transaction_id := req.transaction_id,
                       slave_id := req.slave_id } := by
  unfold finishResponse
  cases srv.response_manipulator <;> rfl

theorem finishResponse_manipulated (srv : Server) (req : Request)
    (tracer : Bool) (executed : List Nat) (code : Option Nat)
    (resp : Response) :
    (finishResponse srv req tracer executed code resp).manipulated =
      srv.response_manipulator.isSome := by
  unfold finishResponse
  cases srv.response_manipulator <;> rfl

theorem finishResponse_code (srv : Server) (req : Request)
    (tracer : Bool) (executed : List Nat) (code : Option Nat)
    (resp : Response) :
    (finishResponse srv req tracer executed code resp).doExceptionCode
      = code := by
  unfold finishResponse
  cases srv.response_manipulator <;> rfl

theorem finishResponse_wire_noManip (srv : Server) (req : Request)
    (tracer : Bool) (executed : List Nat) (code : Option Nat)
    (resp : Response) (h : srv.response_manipulator = none) :
    (finishResponse srv req tracer executed code resp).wire =
      handlerSend { resp with transaction_id := req.transaction_id,
                              slave_id := req.slave_id } false := by
  unfold finishResponse
  rw [h]

theorem firstOccur_of_isPrefixOf (pat s : List Nat)
    (h : List.isPrefixOf pat s = true) : firstOccur pat s = some 0 := by
  cases s with
  | nil => simp [firstOccur, h]
  | cons a rest => simp [firstOccur, h]

theorem replaceFirst_of_isPrefixOf (pat s : List Nat)
    (h : List.isPrefixOf pat s = true) :
    replaceFirst pat s = s.drop pat.length := by
  unfold replaceFirst
  rw [firstOccur_of_isPrefixOf pat s h]
  simp

theorem isPrefixOf_append (pat rest : List Nat) :
    List.isPrefixOf pat (pat ++ rest) = true := by
  rw [ List.isPrefixOf_iff_prefix]
  exact List.prefix_append pat rest

theorem replaceFirst_append (pat rest : List Nat) :
    replaceFirst pat (pat ++ rest) = rest := by
  rw [replaceFirst_of_isPrefixOf pat (pat ++ rest) (isPrefixOf_append pat rest)]
  exact List.drop_left pat rest

theorem bytesContains_append (pat rest : List Nat) :
    bytesContains pat (pat ++ rest) = true := by
  unfold bytesContains
  rw [firstOccur_of_isPrefixOf pat (pat ++ rest) (isPrefixOf_append pat rest)]
  rfl

theorem splitColon_no_colon (s : List Char) (h : ':' ∉ s) :
    splitColon s = [s] := by
  induction s with
  | nil => rfl
  | cons c rest ih =>
    have hc : ¬ c = ':' := fun hcc => h (hcc ▸ List.mem_cons_self c rest)
    have hrest : ':' ∉ rest := fun hm => h (List.mem_cons_of_mem c hm)
    simp [splitColon, hc, ih hrest]

theorem splitColon_append (h r : List Char) (hh : ':' ∉ h) :
    splitColon (h ++ ':' :: r) = h :: splitColon r := by
  induction h with
  | nil => simp [splitColon]
  | cons c rest ih =>
    have hc : ¬ c = ':' := fun hcc => hh (hcc ▸ List.mem_cons_self c rest)
    have hrest : ':' ∉ rest := fun hm => hh (List.mem_cons_of_mem c hm)
    have hx := ih hrest
    simp only [List.cons_append, splitColon, hc, if_false]
    simp only [List.append_eq] at hx ⊢
    rw [hx]

theorem dictContains_dictPop (k : Nat) (m : List (Nat × Nat)) :
    dictContains k (dictPop k m) = false := by
  induction m with
  | nil => rfl
  | cons p rest ih =>
    by_cases hp : p.1 = k
    · simp [dictPop, dictContains, hp, ih]
    · simp [dictPop, dictContains, hp, ih]

theorem dictContains_dictInsert (k v : Nat) (m : List (Nat × Nat)) :
    dictContains k (dictInsert k v m) = true := by
  simp [dictInsert, dictContains]

theorem handlerSend_no_respond (r : Response) (h : r.should_respond = false) :
    handlerSend r false = none := by
  simp [handlerSend, h]

theorem handlerSend_false_cases (r : Response) (w : Wire)
    (h : handlerSend r false = some w) : w = Wire.framed r := by
  unfold handlerSend at h
  by_cases hr : r.should_respond = true
  · rw [if_neg (by simp), if_pos hr] at h
    exact (Option.some.inj h).symm
  · rw [if_neg (by simp), if_neg hr] at h
    cases h

theorem finishResponse_suppressed (srv : Server) (req : Request)
    (tracer : Bool) (executed : List Nat) (code : Option Nat) (resp : Response)
    (r : Response)
    (hs : (finishResponse srv req tracer executed code resp).synthesized
        = some r)
    (hr : r.should_respond = false) :
    (finishResponse srv req tracer executed code resp).manipulated
        = srv.response_manipulator.isSome ∧
    (srv.response_manipulator = none →
      (finishResponse srv req tracer executed code resp).wire = none) := by
  refine ⟨finishResponse_manipulated srv req tracer executed code resp, ?_⟩
  intro hm
  rw [finishResponse_synthesized] at hs
  have hr1 := Option.some.inj hs
  rw [finishResponse_wire_noManip srv req tracer executed code resp hm, hr1]
  exact handlerSend_no_respond r hr

theorem handlerExecute_eq_finish (srv : Server) (req : Request)
    (hb : (srv.broadcast_enable && req.slave_id == 0) = false)
    (hs : (handlerExecute srv req).synthesized ≠ none) :
    ∃ executed code resp,
      handlerExecute srv req =
        finishResponse srv req srv.has_request_tracer executed code resp := by
  rw [handlerExecute_nonbroadcast srv req hb] at hs ⊢
  cases hlk : srv.context.lookup req.slave_id with
  | none =>
    cases him : srv.ignore_missing_slaves with
    | true => simp [hlk, him, silentTrace] at hs
    | false =>
      exact ⟨[], some GatewayNoResponse, req.doException GatewayNoResponse,
        by simp [him]⟩
  | some key =>
    cases hrun : req.run key with
    | ok r => exact ⟨[key], none, r, by simp [hrun]⟩
    | raiseErr =>
      exact ⟨[key], some SlaveFailure, req.doException SlaveFailure,
        by simp [hrun]⟩

theorem finishResponse_ids (srv : Server) (req : Request) (tracer : Bool)
    (executed : List Nat) (code : Option Nat) (resp : Response) :
    (∀ r, (finishResponse srv req tracer executed code resp).synthesized
        = some r →
      r.transaction_id = req.transaction_id ∧ r.slave_id = req.slave_id) ∧
    (srv.response_manipulator = none →
      ∀ w, (finishResponse srv req tracer executed code resp).wire = some w →
        (wireResponse w).transaction_id = req.transaction_id ∧
        (wireResponse w).slave_id = req.slave_id) := by
  constructor
  · intro r hr
    rw [finishResponse_synthesized] at hr
    rw [← Option.some.inj hr]
    exact ⟨rfl, rfl⟩
  · intro hm w hw
    rw [finishResponse_wire_noManip srv req tracer executed code resp hm] at hw
    rw [handlerSend_false_cases _ w hw]
    exact ⟨rfl, rfl⟩

/-! Claim theorems. -/

/-- A normal (non-exception) read response used as a concrete execute result. -/
def okResp : Response :=
  { transaction_id := 0, slave_id := 0, function_code := 3,
    should_respond := true, exception_code := none }

def c1req : Request :=
  { transaction_id := 5, slave_id := 0, function_code := 3,
    run := fun s => if s == 1 then .raiseErr else .ok okResp }

def c1srv : Server :=
  { broadcast_enable := true, ignore_missing_slaves := false,
    has_request_tracer := false, response_manipulator := none,
    context := { single := false, ids := [1, 2] } }

/-- C1 counterexample: a broadcast request whose execution raises on the first
slave context stops the broadcast loop, so the second slave context (id 2) is
never executed against, contradicting the claim that the handler executes the
request against every slave context. -/
theorem C1_counterexample :
    c1srv.broadcast_enable = true ∧ c1req.slave_id = 0 ∧
    c1srv.context.slaves = [1, 2] ∧
    (handlerExecute c1srv c1req).executed = [1] ∧
    2 ∉ (handlerExecute c1srv c1req).executed := by decide

/-- C1 (amended): for every dispatched request with slave_id == 0 while
broadcast_enable is true, no response bytes are emitted and neither the
response_manipulator nor the send path runs; the handler executes the request
against the slave contexts in order, stopping at the first execution that
raises, and in particular against every slave context whenever no execution
raises. -/
theorem C1_amended (srv : Server) (req : Request)
    (h1 : srv.broadcast_enable = true) (h2 : req.slave_id = 0) :
    (handlerExecute srv req).wire = none ∧
    (handlerExecute srv req).manipulated = false ∧
    (handlerExecute srv req).sentResp = none ∧
    ((∀ s ∈ srv.context.slaves, req.run s ≠ ExecOutcome.raiseErr) →
      (handlerExecute srv req).executed = srv.context.slaves) := by
  have hb : (srv.broadcast_enable && req.slave_id == 0) = true := by
    simp [h1, h2]
  rw [handlerExecute_broadcast srv req hb]
  refine ⟨?_, ?_, ?_, ?_⟩
  · cases hbr : (broadcastRun req.run srv.context.slaves).2 <;>
      simp [hbr, silentTrace]
  · cases hbr : (broadcastRun req.run srv.context.slaves).2 <;>
      simp [hbr, silentTrace]
  · cases hbr : (broadcastRun req.run srv.context.slaves).2 <;>
      simp [hbr, silentTrace]
  · intro hall
    have hnr := broadcastRun_noRaise req.run srv.context.slaves hall
    simp [hnr, silentTrace]

def c1wreq : Request :=
  { transaction_id := 5, slave_id := 0, function_code := 3,
    run := fun _ => .ok okResp }

/-- Witness for C1 (amended) at a concrete broadcast request whose execution
succeeds on both slave contexts. -/
theorem C1_amended_witness :
    (handlerExecute c1srv c1wreq).wire = none ∧
    (handlerExecute c1srv c1wreq).executed = [1, 2] := by
  have h := C1_amended c1srv c1wreq rfl rfl
  exact ⟨h.1, h.2.2.2 (by decide)⟩

/-- A write acknowledgement marked silent, used as a concrete execute result. -/
def c2resp : Response :=
  { transaction_id := 0, slave_id := 0, function_code := 5,
    should_respond := false, exception_code := none }

def c2req : Request :=
  { transaction_id := 7, slave_id := 1, function_code := 5,
    run := fun _ => .ok c2resp }

def c2srv : Server :=
  { broadcast_enable := false, ignore_missing_slaves := false,
    has_request_tracer := false,
    response_manipulator := some (fun r => (r, true)),
    context := { single := false, ids := [1] } }

/-- C2 counterexample: a non-broadcast request whose computed response has
should_respond = false is nonetheless passed to the configured
response_manipulator, and because that manipulator returns skip_encoding =
true, bytes are emitted for it as well — contradicting both halves of the
claim that such responses are suppressed before manipulation. -/
theorem C2_counterexample :
    (handlerExecute c2srv c2req).manipulated = true ∧
    (handlerExecute c2srv c2req).wire ≠ none := by decide

/-- C2 (amended): for every non-broadcast dispatched request whose computed
response has should_respond = false, the response still runs through the
response_manipulator whenever one is configured (manipulated equals the
presence of the hook); suppression happens only inside send, so when no
manipulator is configured no bytes are emitted for it. -/
theorem C2_amended (srv : Server) (req : Request) (r : Response)
    (hb : (srv.broadcast_enable && req.slave_id == 0) = false)
    (hs : (handlerExecute srv req).synthesized = some r)
    (hr : r.should_respond = false) :
    (handlerExecute srv req).manipulated = srv.response_manipulator.isSome ∧
    (srv.response_manipulator = none →
      (handlerExecute srv req).wire = none) := by
  obtain ⟨ex, code, resp, heq⟩ :=
    handlerExecute_eq_finish srv req hb (by rw [hs]; simp)
  rw [heq] at hs ⊢
  exact finishResponse_suppressed srv req _ ex code resp r hs hr

def c2wsrv : Server :=
  { broadcast_enable := false, ignore_missing_slaves := false,
    has_request_tracer := false, response_manipulator := none,
    context := { single := false, ids := [1] } }

/-- Witness for C2 (amended): with no manipulator configured, a concrete
should_respond = false response is neither manipulated nor emitted. -/
theorem C2_amended_witness :
    (handlerExecute c2wsrv c2req).manipulated = false ∧
    (handlerExecute c2wsrv c2req).wire = none := by
  have h := C2_amended c2wsrv c2req
    { c2resp with transaction_id := 7, slave_id := 1 } (by decide) (by decide)
    rfl
  exact ⟨h.1, h.2 rfl⟩

/-- C3: for every non-broadcast dispatched request whose slave id is missing
from the server context (lookup raises NoSuchSlave): with
ignore_missing_slaves the handler returns silently; otherwise it synthesizes
an ExceptionResponse with code 11 (GatewayNoResponse), carrying the request's
ids, and (with no manipulator configured) emits it framed; and the handler
passes code 11 to doException in no other situation. -/
theorem C3_missing_slave (srv : Server) (req : Request) :
    ((srv.broadcast_enable && req.slave_id == 0) = false →
      srv.context.lookup req.slave_id = none →
      ((srv.ignore_missing_slaves = true →
         handlerExecute srv req = silentTrace srv.has_request_tracer [] none) ∧
       (srv.ignore_missing_slaves = false →
         (handlerExecute srv req).doExceptionCode = some GatewayNoResponse ∧
         (handlerExecute srv req).synthesized = some
           { transaction_id := req.transaction_id, slave_id := req.slave_id,
             function_code := req.function_code ||| 0x80,
             should_respond := true,
             exception_code := some GatewayNoResponse } ∧
         (srv.response_manipulator = none →
           (handlerExecute srv req).wire = some (Wire.framed
             { transaction_id := req.transaction_id, slave_id := req.slave_id,
               function_code := req.function_code ||| 0x80,
               should_respond := true,
               exception_code := some GatewayNoResponse }))))) ∧
    ((handlerExecute srv req).doExceptionCode = some GatewayNoResponse →
      (srv.broadcast_enable && req.slave_id == 0) = false ∧
      srv.context.lookup req.slave_id = none ∧
      srv.ignore_missing_slaves = false) := by
  constructor
  · intro hb hlk
    rw [handlerExecute_nonbroadcast srv req hb]
    constructor
    · intro him
      simp [hlk, him]
    · intro him
      simp only [hlk, him, Bool.false_eq_true, if_false]
      refine ⟨?_, ?_, ?_⟩
      · exact finishResponse_code srv req srv.has_request_tracer []
          (some GatewayNoResponse) (req.doException GatewayNoResponse)
      · rw [finishResponse_synthesized]
        rfl
      · intro hm
        rw [finishResponse_wire_noManip srv req srv.has_request_tracer []
          (some GatewayNoResponse) (req.doException GatewayNoResponse) hm]
        simp [handlerSend, Request.doException]
  · intro hcode
    by_cases hb : (srv.broadcast_enable && req.slave_id == 0) = true
    · exfalso
      rw [handlerExecute_broadcast srv req hb] at hcode
      cases hbr : (broadcastRun req.run srv.context.slaves).2 <;>
        simp [hbr, silentTrace, SlaveFailure, GatewayNoResponse] at hcode
    · have hb' : (srv.broadcast_enable && req.slave_id == 0) = false := by
        simpa using hb
      refine ⟨hb', ?_⟩
      rw [handlerExecute_nonbroadcast srv req hb'] at hcode
      cases hlk : srv.context.lookup req.slave_id with
      | none =>
        cases him : srv.ignore_missing_slaves with
        | true => simp [hlk, him, silentTrace] at hcode
        | false => exact ⟨rfl, rfl⟩
      | some key =>
        exfalso
        cases hrun : req.run key with
        | ok r =>
          simp only [hlk, hrun] at hcode
          rw [finishResponse_code] at hcode
          cases hcode
        | raiseErr =>
          simp only [hlk, hrun] at hcode
          rw [finishResponse_code] at hcode
          simp [SlaveFailure, GatewayNoResponse] at hcode

def c3wreq : Request :=
  { transaction_id := 3, slave_id := 9, function_code := 4,
    run := fun _ => .ok okResp }

def c3wsrv : Server :=
  { broadcast_enable := false, ignore_missing_slaves := false,
    has_request_tracer := false, response_manipulator := none,
    context := { single := false, ids := [1] } }

def c3wsrv2 : Server :=
  { broadcast_enable := false, ignore_missing_slaves := true,
    has_request_tracer := false, response_manipulator := none,
    context := { single := false, ids := [1] } }

/-- Witness for C3 at a concrete request to missing slave 9: with
ignore_missing_slaves the trace is silent, without it the framed
ExceptionResponse(11) carrying the request's ids is emitted. -/
theorem C3_witness :
    (handlerExecute c3wsrv c3wreq).wire = some (Wire.framed
      { transaction_id := 3, slave_id := 9, function_code := 132,
        should_respond := true, exception_code := some 11 }) ∧
    handlerExecute c3wsrv2 c3wreq = silentTrace false [] none :=
  ⟨(((C3_missing_slave c3wsrv c3wreq).1 (by decide) (by decide)).2 rfl).2.2 rfl,
   ((C3_missing_slave c3wsrv2 c3wreq).1 (by decide) (by decide)).1 rfl⟩

/-- C4: for every non-broadcast dispatched request, the response entering the
manipulation/send stage carries transaction_id and slave_id copied bit-exact
from the request (this covers synthesized ExceptionResponses for missing
slaves and for execution failures), and with no manipulator configured the
response actually emitted on the wire carries those same ids. -/
theorem C4_ids_copied (srv : Server) (req : Request)
    (hb : (srv.broadcast_enable && req.slave_id == 0) = false) :
    (∀ r, (handlerExecute srv req).synthesized = some r →
      r.transaction_id = req.transaction_id ∧ r.slave_id = req.slave_id) ∧
    (srv.response_manipulator = none →
      ∀ w, (handlerExecute srv req).wire = some w →
        (wireResponse w).transaction_id = req.transaction_id ∧
        (wireResponse w).slave_id = req.slave_id) := by
  rw [handlerExecute_nonbroadcast srv req hb]
  cases hlk : srv.context.lookup req.slave_id with
  | none =>
    cases him : srv.ignore_missing_slaves with
    | true =>
      constructor
      · intro r hr
        simp [him, silentTrace] at hr
      · intro hm w hw
        simp [him, silentTrace] at hw
    | false =>
      simp only [him, Bool.false_eq_true, if_false]
      exact finishResponse_ids srv req srv.has_request_tracer []
        (some GatewayNoResponse) (req.doException GatewayNoResponse)
  | some key =>
    cases hrun : req.run key with
    | ok r =>
      simp only [hrun]
      exact finishResponse_ids srv req srv.has_request_tracer [key] none r
    | raiseErr =>
      simp only [hrun]
      exact finishResponse_ids srv req srv.has_request_tracer [key]
        (some SlaveFailure) (req.doException SlaveFailure)

def c4wreq : Request :=
  { transaction_id := 7, slave_id := 1, function_code := 3,
    run := fun _ => .ok okResp }

/-- Witness for C4 at a concrete successful read: the emitted frame carries the
request's transaction_id 7 and slave_id 1. -/
theorem C4_witness :
    (wireResponse (Wire.framed
      { transaction_id := 7, slave_id := 1, function_code := 3,
        should_respond := true, exception_code := none })).transaction_id = 7 ∧
    (wireResponse (Wire.framed
      { transaction_id := 7, slave_id := 1, function_code := 3,
        should_respond := true, exception_code := none })).slave_id = 1 :=
  (C4_ids_copied c2wsrv c4wreq (by decide)).2 rfl
    (Wire.framed
      { transaction_id := 7, slave_id := 1, function_code := 3,
        should_respond := true, exception_code := none }) (by decide)

/-- C5: the claim says an unexpected exception in the receive loop closes the
transport on a stream but calls reset_frame() and continues on a datagram
transport.  The code's branch condition isinstance(self,
ModbusServerRequestHandler) is true for every handler, so the
reset-frame branch is unreachable and a datagram handler also closes its
transport, contradicting the code's own inline comment ("for UDP sockets,
simply reset the frame"). -/
theorem C5_loop_exception :
    handleLoopException { isDatagram := false } =
      LoopExcAction.closeTransport ∧
    handleLoopException { isDatagram := true } =
      LoopExcAction.closeTransport ∧
    handleLoopException { isDatagram := true } ≠
      LoopExcAction.resetFrameAndContinue := by decide

/-- C6 counterexample: with _sent = [9], the chunk [1, 9, 2] is none of the
claim's first three cases, so the claim says it is queued unchanged; the code
instead splices the echo out of the middle and queues [1, 2]. -/
theorem C6_counterexample :
    (data_received true [9] [1, 9, 2]).2 ≠ some [1, 9, 2] ∧
    data_received true [9] [1, 9, 2] = ([], some [1, 2]) := by decide

/-- C6 (amended): with handle_local_echo enabled and _sent nonempty: feeding
back exactly the transmitted bytes queues nothing; echo concatenated with a
nonempty new request queues exactly the new request's bytes; a chunk that is a
prefix of _sent (and does not contain _sent) is consumed from the front of
_sent and queues nothing; a chunk containing _sent anywhere has the first
occurrence spliced out, _sent is cleared, and the remainder (if nonempty) is
queued; a chunk neither containing _sent nor a prefix of it clears _sent and
is queued unchanged. -/
theorem C6_amended (sent data : List Nat) (hs : sent ≠ []) :
    (data = sent → data_received true sent data = ([], none)) ∧
    (∀ tail : List Nat, tail ≠ [] → data = sent ++ tail →
      data_received true sent data = ([], some tail)) ∧
    (bytesContains sent data = false → List.isPrefixOf data sent = true →
      data_received true sent data = (sent.drop data.length, none)) ∧
    (bytesContains sent data = true →
      data_received true sent data =
        ([], if (replaceFirst sent data).isEmpty then none
             else some (replaceFirst sent data))) ∧
    (bytesContains sent data = false → List.isPrefixOf data sent = false →
      data_received true sent data = ([], some data)) := by
  have hse : (!sent.isEmpty) = true := by
    cases sent with
    | nil => exact absurd rfl hs
    | cons a t => rfl
  refine ⟨?_, ?_, ?_, ?_, ?_⟩
  · intro hd
    have hc : bytesContains sent data = true := by
      rw [hd]
      simpa using bytesContains_append sent []
    have hrf : replaceFirst sent data = [] := by
      rw [hd]
      simpa using replaceFirst_append sent []
    simp [data_received, hse, hc, hrf]
  · intro tail ht hd
    subst hd
    have hc := bytesContains_append sent tail
    have hrf := replaceFirst_append sent tail
    have hte : tail.isEmpty = false := by
      cases tail with
      | nil => exact absurd rfl ht
      | cons a t => rfl
    simp [data_received, hse, hc, hrf, hte]
  · intro hc hp
    have hrf := replaceFirst_of_isPrefixOf data sent hp
    simp [data_received, hse, hc, hp, hrf]
  · intro hc
    cases hemp : (replaceFirst sent data).isEmpty <;>
      simp [data_received, hse, hc, hemp]
  · intro hc hp
    have hde : data.isEmpty = false := by
      cases data with
      | nil => simp [List.isPrefixOf] at hp
      | cons a t => rfl
    simp [data_received, hse, hc, hp, hde]

/-- Witness for C6 (amended) at _sent = [1, 2]: the exact echo queues nothing
and echo plus new request [3] queues exactly [3]. -/
theorem C6_amended_witness :
    data_received true [1, 2] [1, 2, 3] = ([], some [3]) ∧
    data_received true [1, 2] [1, 2] = ([], none) :=
  ⟨(C6_amended [1, 2] [1, 2, 3] (by decide)).2.1 [3] (by decide) rfl,
   (C6_amended [1, 2] [1, 2] (by decide)).1 rfl⟩

/-- C7 counterexample: starting a second server while one is registered does
not raise — _serverList.run returns successfully and silently replaces the
registered server in the process-wide slot. -/
theorem C7_counterexample :
    serverListRun { active_server := some 1 } 2 =
      Except.ok { active_server := some 2 } ∧
    ({ active_server := some 2 } : ServerSlot) ≠
      { active_server := some 1 } :=
  ⟨rfl, by decide⟩

/-- C7 (amended): the process-wide slot holds at most one server (it is a
single optional cell), but _serverList.run never raises: it unconditionally
overwrites the slot with the new server, so starting a second server before
stopping the first silently replaces the registered one instead of yielding
an error. -/
theorem C7_amended : ∀ (slot : ServerSlot) (server : Nat),
    serverListRun slot server = Except.ok { active_server := some server } :=
  fun _ _ => rfl

/-- C8 counterexample: for the device string "socket:1.2.3.4:5020" — which
starts with the prefix "socket:" followed by host:port — the code slices nine
characters before parsing, so it binds ("2.3.4", 5020) rather than the claimed
("1.2.3.4", 5020). -/
theorem C8_counterexample :
    serialListenTarget "socket:1.2.3.4:5020".toList ≠
      some ("1.2.3.4".toList, 5020) ∧
    serialListenTarget "socket:1.2.3.4:5020".toList =
      some ("2.3.4".toList, 5020) := by decide

/-- C8 (amended): the socket mode is selected by the prefix "socket:" but the
parser drops nine characters ("socket://"), so for a device string of the form
socket://host:port (colon-free host and port fields, numeric port) the server
binds a TCP listener to exactly (host, port), and _connect returns without
attempting a serial connection; a device matching "socket:" with other
characters in positions 8-9 has those characters swallowed into the host. -/
theorem C8_amended (host portStr : List Char) (port : Nat)
    (hh : ':' ∉ host) (hp : ':' ∉ portStr)
    (hpi : pyInt portStr = some port) :
    serialListenTarget ("socket://".toList ++ host ++ ':' :: portStr)
      = some (host, port) ∧
    connectOpensSerial ("socket://".toList ++ host ++ ':' :: portStr)
      = false := by
  have hsplit : "socket://".toList = "socket:".toList ++ ['/', '/'] := by
    decide
  have hpre : List.isPrefixOf "socket:".toList
      ("socket://".toList ++ host ++ ':' :: portStr) = true := by
    rw [ List.isPrefixOf_iff_prefix, hsplit, List.append_assoc,
      List.append_assoc]
    exact List.prefix_append _ _
  have h9 : ("socket://".toList).length = 9 := by decide
  have hdrop : (("socket://".toList ++ host ++ ':' :: portStr).drop 9)
      = host ++ ':' :: portStr := by
    rw [List.append_assoc, ← h9]
    exact List.drop_left _ _
  constructor
  · unfold serialListenTarget
    rw [hpre]
    simp only [if_true, hdrop]
    rw [splitColon_append host portStr hh, splitColon_no_colon portStr hp]
    simp [hpi]
  · unfold connectOpensSerial
    rw [hpre]
    rfl

/-- Witness for C8 (amended) at the device socket://1.2.3.4:5020. -/
theorem C8_amended_witness :
    serialListenTarget
        ("socket://".toList ++ "1.2.3.4".toList ++ ':' :: "5020".toList)
      = some ("1.2.3.4".toList, 5020) :=
  (C8_amended "1.2.3.4".toList "5020".toList 5020 (by decide) (by decide)
    (by decide)).1

/-- C9: calling ServerAsyncStop (or ServerStop) with an empty active-server
slot raises RuntimeError and changes no state; with a server registered,
ServerAsyncStop awaits its shutdown and clears the slot to None. -/
theorem C9_stop_behavior (slot : ServerSlot) :
    (slot.active_server = none →
      serverListAsyncStop slot =
        Except.error "ServerAsyncStop called without server task active." ∧
      serverListStop slot =
        Except.error "ServerStop called without server task active.") ∧
    (∀ s, slot.active_server = some s →
      serverListAsyncStop slot =
        Except.ok { slot := { active_server := none },
                    shutdownAwaited := true }) := by
  constructor
  · intro h
    constructor <;> simp [serverListAsyncStop, serverListStop, h]
  · intro s h
    simp [serverListAsyncStop, h]

/-- Witness for C9: stopping with server 1 registered clears the slot after
awaiting shutdown; stopping with the slot empty raises. -/
theorem C9_witness :
    serverListAsyncStop { active_server := some 1 } =
      Except.ok { slot := { active_server := none },
                  shutdownAwaited := true } ∧
    serverListAsyncStop { active_server := none } =
      Except.error "ServerAsyncStop called without server task active." :=
  ⟨(C9_stop_behavior { active_server := some 1 }).2 1 rfl,
   ((C9_stop_behavior { active_server := none }).1 rfl).1⟩

/-- C10: connection_made registers the handler under its client address and
sets running; connection_lost cancels the handler task when one exists,
removes the address from active_connections, calls the on_connection_lost hook
exactly when the server defines one, clears running, and completes without
error even when the address was never registered (the map is then left
unchanged). -/
theorem C10_connection_lifecycle (hasHook : Bool) (addr hid : Nat)
    (task : Bool) (m m2 : List (Nat × Nat)) :
    (connection_made addr hid m).running = true ∧
    (connection_made addr hid m).active_connections = dictInsert addr hid m ∧
    dictContains addr (connection_made addr hid m).active_connections
      = true ∧
    (connection_made addr hid m).handler_task = true ∧
    (connection_lost hasHook addr task m2).taskCancelled = task ∧
    (connection_lost hasHook addr task m2).running = false ∧
    (connection_lost hasHook addr task m2).hookCalled = hasHook ∧
    dictContains addr
      (connection_lost hasHook addr task m2).active_connections = false ∧
    (dictContains addr m2 = false →
      (connection_lost hasHook addr task m2).active_connections = m2) := by
  refine ⟨rfl, rfl, ?_, rfl, rfl, rfl, rfl, ?_, ?_⟩
  · exact dictContains_dictInsert addr hid m
  · unfold connection_lost
    by_cases hc : dictContains addr m2 = true
    · simp only [hc, if_true]
      exact dictContains_dictPop addr m2
    · have hc' : dictContains addr m2 = false := by simpa using hc
      simp [hc']
  · intro h
    unfold connection_lost
    simp [h]

/-- Witness for C10: a connection_lost for an address that was never in the
map completes and leaves the (empty) map unchanged, with running cleared. -/
theorem C10_witness :
    (connection_lost true 5 true []).active_connections = [] ∧
    (connection_lost true 5 true []).running = false :=
  ⟨(C10_connection_lifecycle true 5 0 true [] []).2.2.2.2.2.2.2.2 rfl,
   (C10_connection_lifecycle true 5 0 true [] []).2.2.2.2.2.1⟩
